import Mathlib

/-!
Shallow embedding of the session/answer evaluation pipeline of the
Ai-interview backend (src/backend/routes/analyze.py, src/backend/routes/upload.py,
src/backend/database.py, src/backend/routes/session.py), together with proofs
about its claimed properties.

Conventions used throughout:
* SQL NULL and Python `None` are both modelled by `PyVal.none`; columns that the
  code only reads through truthiness tests (`transcript`, `audio_path`) are
  modelled as `Option String` with `none` for NULL.
* JSON-serialized columns (`questions`, `feedback`) are modelled by their decoded
  structured values: `json.dumps`/`json.loads` at the store boundary is treated
  as the identity on structure (the spec's round-trip property).
* Timestamps (`created_at`/`updated_at`) are never read by the modelled logic
  and are omitted.
* `time.sleep` durations are recorded symbolically in units of 0.1 s, so the
  analyze route's `0.2 * retry_count` becomes `2 * retry_count` and the upload
  route's `0.1 * retry_count` becomes `1 * retry_count`.
* External collaborators (`generate_reference_answer`, `evaluate_answer`,
  `transcribe_audio`) and injected infrastructure failures (sqlite "database is
  locked", filesystem errors) are oracles passed in as explicit parameters.
-/

/-- A decoded Python/JSON value as it flows through the evaluation pipeline. -/
inductive PyVal : Type where
  | none
  | bool (b : Bool)
  | int (n : Int)
  | str (s : String)
  | list (xs : List PyVal)

mutual

def PyVal.decEq : (a b : PyVal) → Decidable (a = b)
  | .none, .none => isTrue rfl
  | .bool a, .bool b =>
      if h : a = b then isTrue (by rw [h]) else isFalse (fun hh => h (by injection hh))
  | .int a, .int b =>
      if h : a = b then isTrue (by rw [h]) else isFalse (fun hh => h (by injection hh))
  | .str a, .str b =>
      if h : a = b then isTrue (by rw [h]) else isFalse (fun hh => h (by injection hh))
  | .list xs, .list ys =>
      match PyVal.decEqList xs ys with
      | isTrue h => isTrue (by rw [h])
      | isFalse h => isFalse (fun hh => h (by injection hh))
  | .none, .bool _ => isFalse nofun
  | .none, .int _ => isFalse nofun
  | .none, .str _ => isFalse nofun
  | .none, .list _ => isFalse nofun
  | .bool _, .none => isFalse nofun
  | .bool _, .int _ => isFalse nofun
  | .bool _, .str _ => isFalse nofun
  | .bool _, .list _ => isFalse nofun
  | .int _, .none => isFalse nofun
  | .int _, .bool _ => isFalse nofun
  | .int _, .str _ => isFalse nofun
  | .int _, .list _ => isFalse nofun
  | .str _, .none => isFalse nofun
  | .str _, .bool _ => isFalse nofun
  | .str _, .int _ => isFalse nofun
  | .str _, .list _ => isFalse nofun
  | .list _, .none => isFalse nofun
  | .list _, .bool _ => isFalse nofun
  | .list _, .int _ => isFalse nofun
  | .list _, .str _ => isFalse nofun

def PyVal.decEqList : (xs ys : List PyVal) → Decidable (xs = ys)
  | [], [] => isTrue rfl
  | [], _ :: _ => isFalse nofun
  | _ :: _, [] => isFalse nofun
  | x :: xs, y :: ys =>
      match PyVal.decEq x y with
      | isFalse h => isFalse (fun hh => h (by injection hh))
      | isTrue h1 =>
        match PyVal.decEqList xs ys with
        | isTrue h2 => isTrue (by rw [h1, h2])
        | isFalse h2 => isFalse (fun hh => h2 (by injection hh))

end

instance : DecidableEq PyVal := PyVal.decEq

/-- Python truthiness (`bool(v)`) for the values modelled by `PyVal`. -/
def pyTruthy : PyVal → Bool
  | .none => false
  | .bool b => b
  | .int n => n != 0
  | .str s => !s.isEmpty
  | .list xs => !xs.isEmpty

/-- `PyVal.isNone v` is `v is None` in Python / `IS NULL` in SQL. -/
def PyVal.isNone : PyVal → Bool
  | .none => true
  | _ => false

/-- One decoded question of a session's `questions` JSON column:
`generate_questions` produces objects with an `id` and a `text` field
(`q.get("text", "")` makes a missing text behave as `""`, so `text` is total). -/
structure Question : Type where
  id : String
  text : String
deriving DecidableEq

/-- A row of the `interview_sessions` table (decoded form; timestamps omitted). -/
structure Session : Type where
  id : String
  job_description : String
  resume_text : String
  duration_seconds : Int
  questions : List Question
  status : String
deriving DecidableEq

/-- A row of the `interview_answers` table (decoded form; `created_at` omitted).
`score`, `feedback` and `model_answer` are NULL (`PyVal.none`) until evaluation
persists them. -/
structure Answer : Type where
  id : String
  session_id : String
  question_id : String
  audio_path : Option String
  transcript : Option String
  score : PyVal
  feedback : PyVal
  model_answer : PyVal
deriving DecidableEq

/-- The whole SQLite database: the two tables, rows in rowid order.
`get_db_connection` (src/backend/database.py) issues no
`PRAGMA foreign_keys = ON`, so the `FOREIGN KEY (session_id)` clause of
`interview_answers` is not enforced by the connection. -/
structure Store : Type where
  sessions : List Session
  answers : List Answer
deriving DecidableEq

/-- Truthiness of `answer.get("transcript")`: NULL and `""` are falsy. -/
def strTruthy : Option String → Bool
  | Option.none => false
  | Option.some s => !s.isEmpty

/-- `evaluate_answer`'s structured result: a decoded JSON object, modelled as an
association list in key order. -/
abbrev EvalDict := List (String × PyVal)

/-- `d.get(k)` without default: `some v` when the key is present. -/
def dictGet (d : EvalDict) (k : String) : Option PyVal :=
  (d.find? (fun p => p.1 == k)).map (fun p => p.2)

/-- Python `d.get(k)` (no default): absent keys read as `None`. -/
def pyGet (d : EvalDict) (k : String) : PyVal :=
  (dictGet d k).getD PyVal.none

/-- src/backend/routes/analyze.py lines 121-124:
`score = evaluation.get("total_score")`; `if score is None: score = evaluation.get("score")`. -/
def deriveScore (d : EvalDict) : PyVal :=
  let s := pyGet d "total_score"
  if s.isNone then pyGet d "score" else s

/-- src/backend/routes/analyze.py lines 126-129:
`feedback = evaluation.get("feedback", [])`;
`if not isinstance(feedback, list): feedback = [feedback] if feedback else []`. -/
def normFeedback (d : EvalDict) : PyVal :=
  let f := (dictGet d "feedback").getD (PyVal.list [])
  match f with
  | .list xs => .list xs
  | v => if pyTruthy v then .list [v] else .list []

/-- src/backend/routes/analyze.py line 132:
`model_answer = reference_answer or evaluation.get("model_answer", "")`. -/
def deriveModelAnswer (ref : String) (d : EvalDict) : PyVal :=
  if !ref.isEmpty then .str ref
  else (dictGet d "model_answer").getD (.str "")

/-- `q_text_by_id = {q["id"]: q.get("text", "") for q in session["questions"]}`
followed by `q_text_by_id.get(qid, "")` (analyze.py lines 79, 88): a dict
comprehension lets the last duplicate win, and a missing id reads as `""`. -/
def qTextById (qs : List Question) (qid : String) : String :=
  qs.foldl (fun acc q => if q.id == qid then q.text else acc) ""

/-- Outcome of one call to the external `evaluate_answer` collaborator:
it can raise (`fail`), return a non-dict value (`malformed`, rejected by the
`isinstance(evaluation, dict)` check), or return a decoded JSON object. -/
inductive EvalOutcome : Type where
  | fail
  | malformed
  | ok (result : EvalDict)

/-- Oracles for the two external collaborators `analyze_session` calls.
`gen qid n` is the outcome of the `n`-th call (0-based, counted per question id
within one run) to `generate_reference_answer(question_text, jd, resume)` made
while filling the cache slot of question `qid`; `Option.none` models a raised
exception.  `evalAns aid` is the outcome of the single
`evaluate_answer(question_text, transcript, reference_answer)` call made for
the answer row with id `aid`.  Indexing by ids keeps the external services
black boxes while letting their outcomes vary per call. -/
structure Collab : Type where
  gen : String → Nat → Option String
  evalAns : String → EvalOutcome

/-- One pending `UPDATE interview_answers SET score, feedback, model_answer
WHERE id = ?` statement issued by the evaluation loop. -/
structure Upd : Type where
  id : String
  score : PyVal
  feedback : PyVal
  model_answer : PyVal
deriving DecidableEq

/-- The loop-local state of one evaluation run: `reference_cache` (analyze.py
line 76), the sequence of question ids for which `generate_reference_answer`
was actually invoked, and the `UPDATE` statements issued so far. -/
structure RunState : Type where
  cache : List (String × String)
  genLog : List String
  updates : List Upd
deriving DecidableEq

/-- `reference_cache` lookup: `qid in reference_cache` / `reference_cache[qid]`. -/
def lookupCache (c : List (String × String)) (qid : String) : Option String :=
  (c.find? (fun p => p.1 == qid)).map (fun p => p.2)

/-- How many `generate_reference_answer` calls a run has already made for `qid`. -/
def countCalls (log : List String) (qid : String) : Nat :=
  (log.filter (fun q => q == qid)).length

/-- analyze.py lines 110-148: evaluate one answer against its reference and
queue the persisting `UPDATE`; any exception (or a non-dict result) is caught
and the answer is skipped. -/
def evalStep (co : Collab) (st : RunState) (a : Answer) (ref : String) : RunState :=
  match co.evalAns a.id with
  | .fail => st
  | .malformed => st
  | .ok d =>
      { st with updates :=
          st.updates ++ [⟨a.id, deriveScore d, normFeedback d, deriveModelAnswer ref d⟩] }

/-- analyze.py lines 82-148, the body of `for answer in answers`:
skip already-scored and transcript-less answers, skip unknown questions,
obtain the reference answer through the per-run cache (skipping the answer if
generation raises), then evaluate and queue the row update. -/
def stepAnswer (co : Collab) (qs : List Question) (st : RunState) (a : Answer) : RunState :=
  if !a.score.isNone || !strTruthy a.transcript then st
  else
    let question_text := qTextById qs a.question_id
    if question_text == "" then st
    else
      match lookupCache st.cache a.question_id with
      | Option.some ref => evalStep co st a ref
      | Option.none =>
          match co.gen a.question_id (countCalls st.genLog a.question_id) with
          | Option.none => { st with genLog := st.genLog ++ [a.question_id] }
          | Option.some ref =>
              evalStep co
                { st with cache := st.cache ++ [(a.question_id, ref)],
                          genLog := st.genLog ++ [a.question_id] }
                a ref

/-- `UPDATE interview_sessions SET status = ? WHERE id = ?`. -/
def setStatus (ss : List Session) (sid status : String) : List Session :=
  ss.map (fun s => if s.id == sid then { s with status := status } else s)

/-- Replay one queued `UPDATE interview_answers ... WHERE id = ?` on one row. -/
def applyUpd1 (u : Upd) (a : Answer) : Answer :=
  if u.id == a.id then
    { a with score := u.score, feedback := u.feedback, model_answer := u.model_answer }
  else a

/-- Replay all queued row updates, in issue order, on one row. -/
def applyUpds (ups : List Upd) (a : Answer) : Answer :=
  ups.foldl (fun a u => applyUpd1 u a) a

/-- Result of one execution of the `try` body of `analyze_session`
(analyze.py lines 27-158): either the 404 `HTTPException`, or the committed
store together with the run's loop state. -/
inductive OnceResult : Type where
  | notFound
  | done (store : Store) (run : RunState)

/-- The whole `for answer in answers` loop (analyze.py lines 82-148), run over
the snapshot `SELECT * FROM interview_answers WHERE session_id = ?` returned
at lines 69-72, starting from an empty cache, no generator calls and no
pending updates. -/
def runOf (co : Collab) (store : Store) (sid : String) (qs : List Question) : RunState :=
  (store.answers.filter (fun a => a.session_id == sid)).foldl (stepAnswer co qs) ⟨[], [], []⟩

/-- One execution of the transactional body of `analyze_session`
(analyze.py lines 27-158): fetch the session (404 if absent), short-circuit a
session without questions straight to `analyzed`, otherwise snapshot the
session's answers, run the evaluation loop over the snapshot, and commit the
queued row updates plus the unconditional `status = 'analyzed'` update. -/
def analyzeOnce (co : Collab) (store : Store) (sid : String) : OnceResult :=
  match store.sessions.find? (fun s => s.id == sid) with
  | Option.none => .notFound
  | Option.some sess =>
      if sess.questions.isEmpty then
        .done { store with sessions := setStatus store.sessions sid "analyzed" } ⟨[], [], []⟩
      else
        .done ⟨setStatus store.sessions sid "analyzed",
               store.answers.map (applyUpds (runOf co store sid sess.questions).updates)⟩
              (runOf co store sid sess.questions)

/-- What one loop iteration of the `while retry_count < max_db_retries` loop
observes: `dbFault k = true` injects a store-contention exception into attempt
`k` (the transaction rolls back, so the attempt has no effect on the store). -/
inductive AttemptOut : Type where
  | success (store : Store) (run : RunState)
  | notFound
  | dbErr

/-- Attempt number `k` (0-based) of `analyze_session`'s retry loop. -/
def analyzeAttempt (co : Collab) (dbFault : Nat → Bool) (store : Store) (sid : String)
    (k : Nat) : AttemptOut :=
  if dbFault k then .dbErr
  else
    match analyzeOnce co store sid with
    | .notFound => .notFound
    | .done s run => .success s run

/-- The HTTP-level outcome of `analyze_session`: success, the re-raised 404
`HTTPException`, or the 500 raised after exhausting the retries. -/
inductive RespCode : Type where
  | ok
  | e404
  | e500
deriving DecidableEq

/-- Observable result of an `analyze_session` call: the final store (the input
store when every attempt rolled back), the loop state of the successful run,
the HTTP outcome, how many times the `try` body ran, and the `time.sleep`
durations (in 0.1 s units) taken between attempts. -/
structure AnalyzeResult : Type where
  store : Store
  run : RunState
  resp : RespCode
  attempts : Nat
  delays : List Nat
deriving DecidableEq

/-- analyze.py lines 25 and 160-171, the `while retry_count < max_db_retries`
loop: run the body; on success return; on ANY exception — the 404
`HTTPException` included — increment `retry_count`, and either re-raise (the
404 as itself, anything else as a 500) once `retry_count >= max_db_retries`,
or `time.sleep(0.2 * retry_count)` and loop.  `fuel` is the loop variant
`max_db_retries - retry_count`; the `fuel = 0` fallback is the dead
`raise HTTPException(500, "Analysis failed after retries")` at line 174. -/
def retryLoop (unit : Nat → AttemptOut) (maxR base : Nat) :
    Nat → Nat → List Nat → Store → AnalyzeResult
  | 0, attempts, delays, st0 => ⟨st0, ⟨[], [], []⟩, .e500, attempts, delays⟩
  | fuel + 1, attempts, delays, st0 =>
      match unit attempts with
      | .success s run => ⟨s, run, .ok, attempts + 1, delays⟩
      | .notFound =>
          if attempts + 1 ≥ maxR then ⟨st0, ⟨[], [], []⟩, .e404, attempts + 1, delays⟩
          else retryLoop unit maxR base fuel (attempts + 1) (delays ++ [base * (attempts + 1)]) st0
      | .dbErr =>
          if attempts + 1 ≥ maxR then ⟨st0, ⟨[], [], []⟩, .e500, attempts + 1, delays⟩
          else retryLoop unit maxR base fuel (attempts + 1) (delays ++ [base * (attempts + 1)]) st0

/-- `POST /analyze/{session_id}` (analyze.py lines 14-174):
`max_db_retries = 3`, backoff base `0.2 s` (= 2 in 0.1 s units). -/
def analyze_session (co : Collab) (dbFault : Nat → Bool) (store : Store)
    (sid : String) : AnalyzeResult :=
  retryLoop (analyzeAttempt co dbFault store sid) 3 2 3 0 [] store

/-- HTTP-level outcome of `upload_answer`: success, the 400 for an empty
payload, the 500 `"Failed to save audio file"` from the write/rename step, or
the 500 `"Database error after 3 retries"`.  `upload_answer` has no 404 path:
the session id is never looked up. -/
inductive UploadResp : Type where
  | ok (transcript audio_path : String)
  | badRequest
  | storageError
  | dbError
deriving DecidableEq

/-- Observable result of an `upload_answer` call: the final store, the set of
files on disk under `uploads/`, the HTTP outcome, the number of executions of
the database `try` body, and the `time.sleep` durations (0.1 s units). -/
structure UploadResult : Type where
  store : Store
  files : List String
  resp : UploadResp
  attempts : Nat
  delays : List Nat
deriving DecidableEq

/-- The row built by `INSERT INTO interview_answers (id, session_id,
question_id, audio_path, transcript)` (upload.py lines 93-98); the remaining
columns default to NULL. -/
def freshAnswer (answerId sid qid audioRel transcript : String) : Answer :=
  ⟨answerId, sid, qid, Option.some audioRel, Option.some transcript,
    PyVal.none, PyVal.none, PyVal.none⟩

/-- upload.py lines 77-98: `SELECT id FROM interview_answers WHERE session_id
= ? AND question_id = ?` (`fetchone`), then either `UPDATE ... SET audio_path,
transcript WHERE id = ?` in place or `INSERT` a fresh row. -/
def upsertAnswer (sid qid audioRel transcript answerId : String)
    (answers : List Answer) : List Answer :=
  match answers.find? (fun a => a.session_id == sid && a.question_id == qid) with
  | Option.some existing =>
      answers.map (fun a =>
        if a.id == existing.id
        then { a with audio_path := Option.some audioRel, transcript := Option.some transcript }
        else a)
  | Option.none => answers ++ [freshAnswer answerId sid qid audioRel transcript]

/-- The single transaction of upload.py lines 74-105: the answer upsert plus
the unconditional `UPDATE interview_sessions SET status = 'in_progress' WHERE
id = ?` (which simply matches zero rows when the session does not exist). -/
def uploadDbTxn (sid qid audioRel transcript answerId : String) (store : Store) : Store :=
  ⟨setStatus store.sessions sid "in_progress",
   upsertAnswer sid qid audioRel transcript answerId store.answers⟩

/-- upload.py lines 69-118, the `while retry_count < max_retries` loop around
the database transaction: `Option.none` is the `HTTPException(500)` raised
after 3 failed attempts; backoff is `0.1 * retry_count`.  Returns the
committed store (if any), the number of body executions, and the sleeps. -/
def uploadDbLoop (txn : Store → Store) (dbFault : Nat → Bool) :
    Nat → Nat → List Nat → Store → Option Store × Nat × List Nat
  | 0, attempts, delays, _ => (Option.none, attempts, delays)
  | fuel + 1, attempts, delays, st =>
      if dbFault attempts then
        if attempts + 1 ≥ 3 then (Option.none, attempts + 1, delays)
        else uploadDbLoop txn dbFault fuel (attempts + 1)
          (delays ++ [1 * (attempts + 1)]) st
      else (Option.some (txn st), attempts + 1, delays)

/-- `POST /upload-answer/{session_id}/{question_id}` (upload.py lines 16-139).

Oracle/parameter conventions:
* `content` is the uploaded audio byte string;
* `filename` models the fresh `uuid.uuid4()` plus extension name (line 36);
* `answerId` models the fresh `str(uuid.uuid4())` used on the insert path;
* `transcribed` is the `transcribe_audio` outcome, `Option.none` when it
  raises (the handler then stores an empty transcript, line 62);
* `moveFails` injects an `IOError`/`OSError` into the temp-write/rename step
  (lines 42-55) after the temp file was written;
* `dbFault k` injects a database exception into attempt `k` of the retry loop.

Every failure after the temp write is raised as an `HTTPException`, and the
handler's `except HTTPException: raise` (line 125) runs BEFORE the
`except Exception` block that removes the temp and final files (lines
127-138), so on the storage-error and database-error paths the on-disk files
are left as they are.  The cleanup block itself is reachable only for
non-`HTTPException` failures, which can occur only before any file is
written. -/
def upload_answer (sid qid : String) (content : List Nat)
    (filename answerId : String) (transcribed : Option String)
    (moveFails : Bool) (dbFault : Nat → Bool)
    (store : Store) (files : List String) : UploadResult :=
  if content.isEmpty then
    ⟨store, files, .badRequest, 0, []⟩
  else
    if moveFails then
      ⟨store, files ++ ["uploads/" ++ filename ++ ".tmp"], .storageError, 0, []⟩
    else
      let files1 := files ++ ["uploads/" ++ filename]
      let transcript := transcribed.getD ""
      let audioRel := "uploads/" ++ filename
      match uploadDbLoop (uploadDbTxn sid qid audioRel transcript answerId) dbFault 3 0 [] store with
      | (Option.some store2, attempts, delays) =>
          ⟨store2, files1, .ok transcript audioRel, attempts, delays⟩
      | (Option.none, attempts, delays) =>
          ⟨store, files1, .dbError, attempts, delays⟩

/-- "Eligible answer" (spec glossary): the conjunction of the conditions under
which the loop body of analyze.py lines 82-92 does not `continue` past an
answer: `score` NULL, truthy transcript, and a question id resolving to a
non-empty question text. -/
def eligible (qs : List Question) (a : Answer) : Bool :=
  a.score.isNone && strTruthy a.transcript && !(qTextById qs a.question_id == "")

/-- An eligible answer for question `qid`: exactly the answers whose
processing consults the reference cache slot of `qid`. -/
def wantsGen (qs : List Question) (qid : String) (a : Answer) : Bool :=
  eligible qs a && (a.question_id == qid)

/-- Modelled from the amended C9 claim: the persisted score is the result's
`total_score` value when that key is present with a non-null value, otherwise
the result's `score` value (null when both are absent or null). -/
def specScore (d : EvalDict) : PyVal :=
  match dictGet d "total_score" with
  | Option.some v => if v.isNone then pyGet d "score" else v
  | Option.none => pyGet d "score"

/-- Modelled from the amended C9 claim: a feedback that is already a list is
kept as-is; a present truthy non-list value becomes a one-element sequence;
an absent or falsy (null / empty string / zero / false) value becomes the
empty sequence. -/
def specFeedback (d : EvalDict) : PyVal :=
  match dictGet d "feedback" with
  | Option.some (PyVal.list xs) => PyVal.list xs
  | Option.some v => if pyTruthy v then PyVal.list [v] else PyVal.list []
  | Option.none => PyVal.list []

/-! ### Concrete fixtures

Small concrete stores and collaborator oracles used by the closed
instantiations of the theorems below. -/

/-- A session with the single question `q1`. -/
def sessW : Session := ⟨"s", "jd", "cv", 600, [⟨"q1", "Tell me about yourself"⟩], "in_progress"⟩

/-- An answer to `q1` that evaluation has already scored. -/
def ansScored : Answer :=
  ⟨"a1", "s", "q1", Option.some "uploads/a1.webm", Option.some "t1",
    PyVal.int 5, PyVal.list [PyVal.str "f"], PyVal.str "m"⟩

/-- An unscored answer to `q1` with the given id, carrying a transcript. -/
def ansNew (aid : String) : Answer :=
  ⟨aid, "s", "q1", Option.some ("uploads/" ++ aid ++ ".webm"), Option.some ("t-" ++ aid),
    PyVal.none, PyVal.none, PyVal.none⟩

/-- A collaborator whose generator always succeeds and whose evaluator fails
exactly for answer `a2`, returning a well-formed scored result elsewhere. -/
def collabW : Collab :=
  ⟨fun _ _ => Option.some "ideal",
   fun aid => if aid == "a2" then .fail
              else .ok [("total_score", PyVal.int 8), ("feedback", PyVal.str "good")]⟩

/-- A collaborator whose evaluator always returns the dict
`total_score: None, score: 7, feedback: ""`. -/
def collabNullScore : Collab :=
  ⟨fun _ _ => Option.some "ideal",
   fun _ => .ok [("total_score", PyVal.none), ("score", PyVal.int 7),
                 ("feedback", PyVal.str "")]⟩

section Sanity
example : deriveScore [("total_score", PyVal.int 8), ("score", PyVal.int 3)] = PyVal.int 8 := by decide
example : deriveScore [("total_score", PyVal.none), ("score", PyVal.int 3)] = PyVal.int 3 := by decide
example : deriveScore [] = PyVal.none := by decide
example : normFeedback [("feedback", PyVal.str "good")] = PyVal.list [PyVal.str "good"] := by decide
example : normFeedback [("feedback", PyVal.str "")] = PyVal.list [] := by decide
example : normFeedback [("feedback", PyVal.list [PyVal.str "a"])] = PyVal.list [PyVal.str "a"] := by decide
example : normFeedback [] = PyVal.list [] := by decide
example : qTextById [⟨"q1", "A"⟩, ⟨"q1", "B"⟩] "q1" = "B" := by decide

example :
    let sess : Session := ⟨"s", "jd", "cv", 600, [⟨"q1", "Tell me about yourself"⟩], "in_progress"⟩
    let ans : Answer :=
      ⟨"a1", "s", "q1", Option.some "uploads/x.webm", Option.some "I am a backend engineer",
        PyVal.none, PyVal.none, PyVal.none⟩
    let co : Collab :=
      ⟨fun _ _ => Option.some "ideal",
       fun _ => .ok [("total_score", PyVal.int 8), ("feedback", PyVal.str "good")]⟩
    let r := analyze_session co (fun _ => false) ⟨[sess], [ans]⟩ "s"
    r.resp = .ok ∧ r.attempts = 1 ∧ r.run.genLog = ["q1"] ∧
      r.store.sessions = [{ sess with status := "analyzed" }] ∧
      r.store.answers =
        [{ ans with score := PyVal.int 8, feedback := PyVal.list [PyVal.str "good"],
                    model_answer := PyVal.str "ideal" }] := by
  decide

example :
    let r := analyze_session ⟨fun _ _ => Option.none, fun _ => .fail⟩ (fun _ => false)
      ⟨[], []⟩ "missing"
    r.resp = .e404 ∧ r.attempts = 3 ∧ r.delays = [2, 4] := by
  decide

example :
    let r := analyze_session ⟨fun _ _ => Option.none, fun _ => .fail⟩ (fun _ => true)
      ⟨[], []⟩ "s"
    r.resp = .e500 ∧ r.attempts = 3 ∧ r.delays = [2, 4] := by
  decide

example :
    let sess : Session := ⟨"s", "jd", "cv", 600, [⟨"q1", "Q"⟩], "analyzed"⟩
    let r := upload_answer "s" "q1" [1, 2] "f.webm" "a1" (Option.some "hi") false
      (fun _ => false) ⟨[sess], []⟩ []
    r.resp = .ok "hi" "uploads/f.webm" ∧
      r.store.sessions = [{ sess with status := "in_progress" }] ∧
      r.store.answers = [freshAnswer "a1" "s" "q1" "uploads/f.webm" "hi"] ∧
      r.files = ["uploads/f.webm"] ∧ r.attempts = 1 := by
  decide

example :
    let r := upload_answer "s" "q1" [1] "f.webm" "a1" (Option.some "hi") false
      (fun _ => true) ⟨[], []⟩ []
    r.resp = .dbError ∧ r.files = ["uploads/f.webm"] ∧ r.store.answers = [] ∧
      r.attempts = 3 ∧ r.delays = [1, 2] := by
  decide
end Sanity

/-! ## Helper lemmas -/

theorem PyVal.isNone_iff {v : PyVal} : v.isNone = true ↔ v = PyVal.none := by
  cases v <;> simp [PyVal.isNone]

theorem applyUpds_nil (a : Answer) : applyUpds [] a = a := rfl

theorem applyUpds_cons (u : Upd) (ups : List Upd) (a : Answer) :
    applyUpds (u :: ups) a = applyUpds ups (applyUpd1 u a) := rfl

theorem applyUpd1_id (u : Upd) (a : Answer) : (applyUpd1 u a).id = a.id := by
  unfold applyUpd1; split <;> rfl

theorem applyUpds_id (ups : List Upd) : ∀ a : Answer, (applyUpds ups a).id = a.id := by
  induction ups with
  | nil => intro a; rfl
  | cons u ups ih => intro a; rw [applyUpds_cons, ih, applyUpd1_id]

theorem applyUpds_eq_self : ∀ (ups : List Upd) (a : Answer),
    (∀ u ∈ ups, u.id ≠ a.id) → applyUpds ups a = a
  | [], _, _ => rfl
  | u :: ups, a, h => by
      have hu : u.id ≠ a.id := h u (List.mem_cons_self u ups)
      have h1 : applyUpd1 u a = a := by simp [applyUpd1, hu]
      rw [applyUpds_cons, h1]
      exact applyUpds_eq_self ups a (fun v hv => h v (List.mem_cons_of_mem u hv))

theorem applyUpds_of_mem : ∀ (ups : List Upd) (a : Answer) (u : Upd),
    u ∈ ups → u.id = a.id → (ups.map Upd.id).Nodup →
    applyUpds ups a =
      { a with score := u.score, feedback := u.feedback, model_answer := u.model_answer }
  | [], _, _, hmem, _, _ => absurd hmem (List.not_mem_nil _)
  | v :: ups, a, u, hmem, hid, hnd => by
      rw [List.map_cons, List.nodup_cons] at hnd
      rw [applyUpds_cons]
      rcases List.mem_cons.mp hmem with rfl | hmem'
      · have h1 : applyUpd1 u a =
            { a with score := u.score, feedback := u.feedback, model_answer := u.model_answer } := by
          simp [applyUpd1, hid]
        rw [h1]
        apply applyUpds_eq_self
        intro w hw he
        have he' : w.id = u.id := by rw [hid]; simpa using he
        exact hnd.1 (he' ▸ List.mem_map_of_mem Upd.id hw)
      · have hv : v.id ≠ a.id := by
          intro e
          exact hnd.1 (by rw [e, ← hid]; exact List.mem_map_of_mem Upd.id hmem')
        have h1 : applyUpd1 v a = a := by simp [applyUpd1, hv]
        rw [h1]
        exact applyUpds_of_mem ups a u hmem' hid hnd.2

theorem map_applyUpds_nil (l : List Answer) : l.map (applyUpds []) = l := by
  have h : applyUpds [] = fun a => a := rfl
  rw [h, List.map_id']

/-- One loop iteration either leaves the pending updates unchanged (the answer
was skipped) or appends exactly the one `UPDATE` built from a successful,
well-formed evaluation of an unscored answer with a transcript. -/
theorem stepAnswer_updates_eq (co : Collab) (qs : List Question) (st : RunState) (a : Answer) :
    (stepAnswer co qs st a).updates = st.updates ∨
    ∃ d ref, co.evalAns a.id = .ok d ∧ a.score.isNone = true ∧ strTruthy a.transcript = true ∧
      qTextById qs a.question_id ≠ "" ∧
      (stepAnswer co qs st a).updates =
        st.updates ++ [⟨a.id, deriveScore d, normFeedback d, deriveModelAnswer ref d⟩] := by
  cases hA : a.score.isNone with
  | false => left; simp [stepAnswer, hA]
  | true =>
    cases hB : strTruthy a.transcript with
    | false => left; simp [stepAnswer, hA, hB]
    | true =>
      by_cases hq : qTextById qs a.question_id = ""
      · left; simp [stepAnswer, hA, hB, hq]
      · cases hc : lookupCache st.cache a.question_id with
        | some ref =>
            cases he : co.evalAns a.id with
            | fail => left; simp [stepAnswer, evalStep, hA, hB, hq, hc, he]
            | malformed => left; simp [stepAnswer, evalStep, hA, hB, hq, hc, he]
            | ok d =>
                right
                exact ⟨d, ref, rfl, rfl, rfl, hq,
                  by simp [stepAnswer, evalStep, hA, hB, hq, hc, he]⟩
        | none =>
            cases hg : co.gen a.question_id (countCalls st.genLog a.question_id) with
            | none => left; simp [stepAnswer, hA, hB, hq, hc, hg]
            | some ref =>
                cases he : co.evalAns a.id with
                | fail => left; simp [stepAnswer, evalStep, hA, hB, hq, hc, hg, he]
                | malformed => left; simp [stepAnswer, evalStep, hA, hB, hq, hc, hg, he]
                | ok d =>
                    right
                    exact ⟨d, ref, rfl, rfl, rfl, hq,
                      by simp [stepAnswer, evalStep, hA, hB, hq, hc, hg, he]⟩

theorem updates_mono_step (co : Collab) (qs : List Question) (st : RunState) (a : Answer)
    (u : Upd) (hu : u ∈ st.updates) : u ∈ (stepAnswer co qs st a).updates := by
  rcases stepAnswer_updates_eq co qs st a with h | ⟨d, ref, _, _, _, _, h⟩ <;> rw [h]
  · exact hu
  · exact List.mem_append_left _ hu

theorem updates_mono_fold (co : Collab) (qs : List Question) :
    ∀ (l : List Answer) (st : RunState) (u : Upd),
    u ∈ st.updates → u ∈ (l.foldl (stepAnswer co qs) st).updates
  | [], _, _, h => h
  | a :: l, st, u, h =>
      updates_mono_fold co qs l (stepAnswer co qs st a) u (updates_mono_step co qs st a u h)

/-- Every `UPDATE` queued by the loop targets the id of some answer whose
`score` column was NULL in the snapshot the loop iterated over. -/
theorem updates_src_fold (co : Collab) (qs : List Question) :
    ∀ (l : List Answer) (st : RunState) (u : Upd),
    u ∈ (l.foldl (stepAnswer co qs) st).updates →
    u ∈ st.updates ∨ ∃ b ∈ l, b.id = u.id ∧ b.score.isNone = true
  | [], _, _, h => Or.inl h
  | a :: l, st, u, h => by
      rcases updates_src_fold co qs l (stepAnswer co qs st a) u h with h' | ⟨b, hb, hid, hsc⟩
      · rcases stepAnswer_updates_eq co qs st a with heq | ⟨d, ref, _, hscore, _, _, heq⟩
        · rw [heq] at h'; exact Or.inl h'
        · rw [heq] at h'
          rcases List.mem_append.mp h' with h'' | h''
          · exact Or.inl h''
          · have hue : u = ⟨a.id, deriveScore d, normFeedback d, deriveModelAnswer ref d⟩ :=
              List.mem_singleton.mp h''
            exact Or.inr ⟨a, List.mem_cons_self a l, by rw [hue], hscore⟩
      · exact Or.inr ⟨b, List.mem_cons_of_mem a hb, hid, hsc⟩

theorem updates_ids_sub_step (co : Collab) (qs : List Question) (st : RunState) (a : Answer) :
    ((stepAnswer co qs st a).updates.map Upd.id).Sublist
      ((st.updates.map Upd.id) ++ [a.id]) := by
  rcases stepAnswer_updates_eq co qs st a with h | ⟨d, ref, _, _, _, _, h⟩ <;> rw [h]
  · exact List.sublist_append_left _ _
  · rw [List.map_append]; exact List.Sublist.refl _

/-- The loop issues at most one `UPDATE` per snapshot row, in snapshot order. -/
theorem updates_ids_sub_fold (co : Collab) (qs : List Question) :
    ∀ (l : List Answer) (st : RunState),
    ((l.foldl (stepAnswer co qs) st).updates.map Upd.id).Sublist
      ((st.updates.map Upd.id) ++ l.map Answer.id)
  | [], st => by simp
  | a :: l, st => by
      have h1 := updates_ids_sub_fold co qs l (stepAnswer co qs st a)
      have h2 := (updates_ids_sub_step co qs st a).append_right (l.map Answer.id)
      have h3 := h1.trans h2
      rw [List.append_assoc] at h3
      simpa using h3

/-- An unscored answer with a transcript and a known question, whose
evaluation returns a well-formed structure, gets exactly the `UPDATE` built by
lines 121-143 queued by the loop (when reference generation always succeeds). -/
theorem update_exists_fold (co : Collab) (qs : List Question)
    (hgen : ∀ q n, (co.gen q n).isSome = true) :
    ∀ (l : List Answer) (st : RunState) (b : Answer) (d : EvalDict),
    b ∈ l → b.score.isNone = true → strTruthy b.transcript = true →
    qTextById qs b.question_id ≠ "" → co.evalAns b.id = .ok d →
    ∃ u ∈ (l.foldl (stepAnswer co qs) st).updates,
      u.id = b.id ∧ u.score = deriveScore d ∧ u.feedback = normFeedback d
  | [], _, _, _, hb, _, _, _, _ => absurd hb (List.not_mem_nil _)
  | a :: l, st, b, d, hb, h1, h2, h3, h4 => by
      rcases List.mem_cons.mp hb with rfl | hb'
      · have hupd : ∃ ref, (stepAnswer co qs st b).updates =
            st.updates ++ [⟨b.id, deriveScore d, normFeedback d, deriveModelAnswer ref d⟩] := by
          cases hc : lookupCache st.cache b.question_id with
          | some ref => exact ⟨ref, by simp [stepAnswer, evalStep, h1, h2, h3, hc, h4]⟩
          | none =>
            cases hg : co.gen b.question_id (countCalls st.genLog b.question_id) with
            | none =>
                exact absurd (hgen b.question_id (countCalls st.genLog b.question_id))
                  (by simp [hg])
            | some ref => exact ⟨ref, by simp [stepAnswer, evalStep, h1, h2, h3, hc, hg, h4]⟩
        rcases hupd with ⟨ref, heq⟩
        refine ⟨⟨b.id, deriveScore d, normFeedback d, deriveModelAnswer ref d⟩,
          updates_mono_fold co qs l _ _ ?_, rfl, rfl, rfl⟩
        rw [heq]
        exact List.mem_append_right _ (List.mem_singleton_self _)
      · exact update_exists_fold co qs hgen l (stepAnswer co qs st a) b d hb' h1 h2 h3 h4

/-- Unfolding of a successful transactional body: committed sessions, committed
answers, and provenance of every queued update. -/
theorem analyzeOnce_done {co : Collab} {store : Store} {sid : String} {s : Store}
    {run : RunState} (h : analyzeOnce co store sid = .done s run) :
    s.sessions = setStatus store.sessions sid "analyzed" ∧
    s.answers = store.answers.map (applyUpds run.updates) ∧
    (∀ u ∈ run.updates, ∃ b ∈ store.answers, b.id = u.id ∧ b.score.isNone = true) := by
  unfold analyzeOnce at h
  cases hf : store.sessions.find? (fun t => t.id == sid) with
  | none => rw [hf] at h; exact absurd h (by simp)
  | some sess =>
    rw [hf] at h
    dsimp only at h
    by_cases hq : sess.questions.isEmpty
    · rw [if_pos hq] at h
      injection h with h1 h2
      subst h1; subst h2
      refine ⟨rfl, ?_, by simp⟩
      rw [map_applyUpds_nil]
    · rw [if_neg hq] at h
      injection h with h1 h2
      subst h1; subst h2
      refine ⟨rfl, rfl, ?_⟩
      intro u hu
      rcases updates_src_fold co sess.questions _ _ u hu with h' | ⟨b, hb, hid, hsc⟩
      · exact absurd h' (List.not_mem_nil u)
      · exact ⟨b, (List.mem_filter.mp hb).1, hid, hsc⟩

theorem analyzeAttempt_success {co : Collab} {dbFault : Nat → Bool} {store : Store}
    {sid : String} {k : Nat} {s : Store} {run : RunState}
    (h : analyzeAttempt co dbFault store sid k = .success s run) :
    analyzeOnce co store sid = .done s run := by
  unfold analyzeAttempt at h
  by_cases hk : dbFault k
  · rw [if_pos hk] at h; exact absurd h (by simp)
  · rw [if_neg hk] at h
    cases ho : analyzeOnce co store sid with
    | notFound => rw [ho] at h; exact absurd h (by simp)
    | done s' run' =>
        rw [ho] at h
        injection h with h1 h2
        rw [h1, h2]

/-- The retry loop either rolls everything back (the store it returns is the
one it was given) or returns the store committed by some successful attempt. -/
theorem retryLoop_store (unit : Nat → AttemptOut) (maxR base : Nat) :
    ∀ (fuel attempts : Nat) (delays : List Nat) (st0 : Store),
    (retryLoop unit maxR base fuel attempts delays st0).store = st0 ∨
    ∃ k, unit k = .success (retryLoop unit maxR base fuel attempts delays st0).store
                          (retryLoop unit maxR base fuel attempts delays st0).run
  | 0, _, _, _ => Or.inl rfl
  | fuel + 1, attempts, delays, st0 => by
      cases hu : unit attempts with
      | success s run => right; exact ⟨attempts, by simp [retryLoop, hu]⟩
      | notFound =>
          by_cases hx : attempts + 1 ≥ maxR
          · left; simp [retryLoop, hu, hx]
          · have := retryLoop_store unit maxR base fuel (attempts + 1)
              (delays ++ [base * (attempts + 1)]) st0
            simpa [retryLoop, hu, hx] using this
      | dbErr =>
          by_cases hx : attempts + 1 ≥ maxR
          · left; simp [retryLoop, hu, hx]
          · have := retryLoop_store unit maxR base fuel (attempts + 1)
              (delays ++ [base * (attempts + 1)]) st0
            simpa [retryLoop, hu, hx] using this

/-- `analyze_session` either leaves the store untouched or commits exactly the
result of one execution of the transactional body on the input store. -/
theorem analyze_session_store (co : Collab) (dbFault : Nat → Bool) (store : Store)
    (sid : String) :
    (analyze_session co dbFault store sid).store = store ∨
    analyzeOnce co store sid = .done (analyze_session co dbFault store sid).store
                                     (analyze_session co dbFault store sid).run := by
  rcases retryLoop_store (analyzeAttempt co dbFault store sid) 3 2 3 0 [] store with h | ⟨k, h⟩
  · exact Or.inl h
  · exact Or.inr (analyzeAttempt_success h)

theorem analyze_session_answer_ids (co : Collab) (dbFault : Nat → Bool) (store : Store)
    (sid : String) :
    (analyze_session co dbFault store sid).store.answers.map Answer.id =
      store.answers.map Answer.id := by
  rcases analyze_session_store co dbFault store sid with h | h
  · rw [h]
  · rcases analyzeOnce_done h with ⟨_, ha, _⟩
    rw [ha, List.map_map]
    apply List.map_congr_left
    intro a _
    simp [Function.comp, applyUpds_id]

/-- The evaluation pass never rewrites a row whose `score` is already
non-null: the row survives `analyze_session` byte-for-byte. -/
theorem analyze_preserves_scored (co : Collab) (dbFault : Nat → Bool) (store : Store)
    (sid : String) (hnd : (store.answers.map Answer.id).Nodup)
    (a : Answer) (ha : a ∈ store.answers) (hs : a.score ≠ PyVal.none) :
    a ∈ (analyze_session co dbFault store sid).store.answers := by
  rcases analyze_session_store co dbFault store sid with h | h
  · rw [h]; exact ha
  · rcases analyzeOnce_done h with ⟨_, hans, hsrc⟩
    rw [hans]
    have hfix : applyUpds (analyze_session co dbFault store sid).run.updates a = a := by
      apply applyUpds_eq_self
      intro u hu he
      rcases hsrc u hu with ⟨b, hb, hbid, hbs⟩
      have hb_eq : b = a := List.inj_on_of_nodup_map hnd hb ha (by rw [hbid, he])
      rw [hb_eq] at hbs
      exact hs (PyVal.isNone_iff.mp hbs)
    rw [← hfix]
    exact List.mem_map_of_mem _ ha

/-! ## Claims -/

/-- C1: calling `analyze(session_id)` twice in a row never changes an
already-scored answer on the second call: every answer of the store produced
by the first call whose `score` is non-null is still present, with the same
`id`, `score`, `feedback` and `model_answer`, after the second call — the
orchestrator skips any answer with a non-null score (analyze.py line 84).
`hnd` is primary-key uniqueness of the answer ids. -/
theorem C1_idempotent_reanalysis (co₁ co₂ : Collab) (df₁ df₂ : Nat → Bool)
    (store : Store) (sid : String)
    (hnd : (store.answers.map Answer.id).Nodup) (a : Answer)
    (ha : a ∈ (analyze_session co₁ df₁ store sid).store.answers)
    (hs : a.score ≠ PyVal.none) :
    ∃ a' ∈ (analyze_session co₂ df₂ (analyze_session co₁ df₁ store sid).store sid).store.answers,
      a'.id = a.id ∧ a'.score = a.score ∧ a'.feedback = a.feedback ∧
      a'.model_answer = a.model_answer := by
  have hnd1 : ((analyze_session co₁ df₁ store sid).store.answers.map Answer.id).Nodup := by
    rw [analyze_session_answer_ids]; exact hnd
  exact ⟨a, analyze_preserves_scored co₂ df₂ _ sid hnd1 a ha hs, rfl, rfl, rfl, rfl⟩

/-- Closed instance of `C1_idempotent_reanalysis`: a store holding one scored
and one unscored answer, analyzed twice. -/
theorem C1_idempotent_reanalysis_witness :
    ∃ a' ∈ (analyze_session collabW (fun _ => false)
        ((analyze_session collabW (fun _ => false)
          ⟨[sessW], [ansScored, ansNew "a9"]⟩ "s").store) "s").store.answers,
      a'.id = ansScored.id ∧ a'.score = ansScored.score ∧ a'.feedback = ansScored.feedback ∧
      a'.model_answer = ansScored.model_answer :=
  C1_idempotent_reanalysis collabW collabW (fun _ => false) (fun _ => false)
    ⟨[sessW], [ansScored, ansNew "a9"]⟩ "s" (by decide) ansScored (by decide) (by decide)

/-- C5: when every attempt of the transactional unit fails with store
contention (`dbFault` constantly true), the retry wrapper executes the unit
exactly 3 times, sleeps a linearly increasing delay between attempts
(base 0.2 s times the attempt number, i.e. 2·1 and 2·2 in 0.1 s units),
rolls the store back, and surfaces the contention-class 500 — which is a
different response than the NotFound 404. -/
theorem C5_retry_exhaustion_distinct (co : Collab) (store : Store) (sid : String) :
    (analyze_session co (fun _ => true) store sid).attempts = 3 ∧
    (analyze_session co (fun _ => true) store sid).delays = [2 * 1, 2 * 2] ∧
    (analyze_session co (fun _ => true) store sid).resp = .e500 ∧
    (analyze_session co (fun _ => true) store sid).resp ≠ .e404 ∧
    (analyze_session co (fun _ => true) store sid).store = store := by
  refine ⟨rfl, rfl, rfl, ?_, rfl⟩
  intro h
  exact RespCode.noConfusion h

/-- C2 counterexample: a concrete `analyze` call on a store holding no session
at all.  The claim says the 404 propagates immediately — one execution of the
body and no backoff sleep — yet the body runs 3 times and two backoff sleeps
(0.2 s and 0.4 s) are taken before the 404 surfaces. -/
theorem C2_counterexample_notfound_retried :
    (analyze_session collabW (fun _ => false) ⟨[], []⟩ "missing").resp = .e404 ∧
    (analyze_session collabW (fun _ => false) ⟨[], []⟩ "missing").attempts = 3 ∧
    (analyze_session collabW (fun _ => false) ⟨[], []⟩ "missing").attempts ≠ 1 ∧
    (analyze_session collabW (fun _ => false) ⟨[], []⟩ "missing").delays = [2, 4] ∧
    (analyze_session collabW (fun _ => false) ⟨[], []⟩ "missing").delays ≠ [] := by
  decide

/-- C2 (amended): when no session with the given id exists, the NotFound is
surfaced to the caller as a 404 and is never converted into the
store-contention 500, but it is NOT exempt from the retry machinery: the
blanket `except Exception` clause (analyze.py line 160) catches the 404
`HTTPException` too, so the body runs 3 times with backoff sleeps 0.2·1 s and
0.2·2 s between attempts before the `isinstance(db_error, HTTPException)`
check at line 164 re-raises it; the store is left unchanged. -/
theorem C2_amended_notfound_retried_then_404 (co : Collab) (store : Store) (sid : String)
    (habs : store.sessions.find? (fun s => s.id == sid) = Option.none) :
    (analyze_session co (fun _ => false) store sid).resp = .e404 ∧
    (analyze_session co (fun _ => false) store sid).attempts = 3 ∧
    (analyze_session co (fun _ => false) store sid).delays = [2 * 1, 2 * 2] ∧
    (analyze_session co (fun _ => false) store sid).store = store := by
  have honce : analyzeOnce co store sid = .notFound := by
    unfold analyzeOnce; rw [habs]
  have hatt : ∀ k, analyzeAttempt co (fun _ => false) store sid k = .notFound := by
    intro k; unfold analyzeAttempt; rw [if_neg (by simp), honce]
  refine ⟨?_, ?_, ?_, ?_⟩ <;> simp [analyze_session, retryLoop, hatt]

/-- Closed instance of `C2_amended_notfound_retried_then_404` on the empty store. -/
theorem C2_amended_notfound_retried_then_404_witness :
    (analyze_session collabW (fun _ => false) ⟨[], []⟩ "nope").resp = .e404 ∧
    (analyze_session collabW (fun _ => false) ⟨[], []⟩ "nope").attempts = 3 ∧
    (analyze_session collabW (fun _ => false) ⟨[], []⟩ "nope").delays = [2 * 1, 2 * 2] ∧
    (analyze_session collabW (fun _ => false) ⟨[], []⟩ "nope").store = ⟨[], []⟩ :=
  C2_amended_notfound_retried_then_404 collabW ⟨[], []⟩ "nope" (by decide)

/-- A fault-free `upload_answer` call commits exactly one transaction on the
first attempt and reports the transcript and relative audio path. -/
theorem upload_noFault_eq (sid qid : String) (content : List Nat)
    (filename answerId : String) (transcribed : Option String)
    (store : Store) (files : List String) (hne : content ≠ []) :
    upload_answer sid qid content filename answerId transcribed false
        (fun _ => false) store files =
      ⟨uploadDbTxn sid qid ("uploads/" ++ filename) (transcribed.getD "") answerId store,
       files ++ ["uploads/" ++ filename],
       .ok (transcribed.getD "") ("uploads/" ++ filename), 1, []⟩ := by
  have he : content.isEmpty = false := by
    cases content with
    | nil => exact absurd rfl hne
    | cons a l => rfl
  simp [upload_answer, uploadDbLoop, he]

theorem setStatus_mem {ss : List Session} {sid status : String} {s : Session}
    (hs : s ∈ setStatus ss sid status) (hid : s.id = sid) : s.status = status := by
  rw [setStatus] at hs
  rcases List.mem_map.mp hs with ⟨t, ht, rfl⟩
  by_cases h : (t.id == sid) = true
  · rw [if_pos h]
  · rw [if_neg h] at hid ⊢
    exact absurd hid (by simpa using h)

/-- C3 counterexample: a concrete upload onto a session whose status is
already `analyzed`.  The claim says the status after the call is still
`analyzed`, never `in_progress`; the call in fact leaves it `in_progress`. -/
theorem C3_counterexample_status_regressed :
    (upload_answer "s" "q1" [1] "f.webm" "b1" (Option.some "hi") false (fun _ => false)
        ⟨[{ sessW with status := "analyzed" }], []⟩ []).store.sessions =
      [{ sessW with status := "in_progress" }] ∧
    "in_progress" ≠ "analyzed" :=
  ⟨by decide, by decide⟩

/-- C3 (amended): session status is NOT monotonic under `upload_answer`: the
handler runs `UPDATE interview_sessions SET status = 'in_progress'`
unconditionally (upload.py lines 100-105), so after any successful upload
every session row with the uploaded id — including one previously
`analyzed` — has status `in_progress`. -/
theorem C3_amended_upload_sets_in_progress (store : Store) (files : List String)
    (sid qid : String) (content : List Nat) (filename answerId : String)
    (transcribed : Option String) (hne : content ≠ [])
    (sess : Session) (hmem : sess ∈ store.sessions) (hid : sess.id = sid) :
    { sess with status := "in_progress" } ∈
      (upload_answer sid qid content filename answerId transcribed false
        (fun _ => false) store files).store.sessions ∧
    ∀ s ∈ (upload_answer sid qid content filename answerId transcribed false
        (fun _ => false) store files).store.sessions,
      s.id = sid → s.status = "in_progress" := by
  rw [upload_noFault_eq sid qid content filename answerId transcribed store files hne]
  constructor
  · show { sess with status := "in_progress" } ∈ setStatus store.sessions sid "in_progress"
    rw [setStatus]
    refine List.mem_map.mpr ⟨sess, hmem, ?_⟩
    rw [if_pos (by simpa using hid)]
  · intro s hs hsid
    exact setStatus_mem hs hsid

/-- Closed instance of `C3_amended_upload_sets_in_progress`: the `analyzed`
session ends up, status regressed to `in_progress`, in the committed store. -/
theorem C3_amended_upload_sets_in_progress_witness :
    { sessW with status := "in_progress" } ∈
      (upload_answer "s" "q1" [1] "f.webm" "b1" (Option.some "hi") false (fun _ => false)
        ⟨[{ sessW with status := "analyzed" }], []⟩ []).store.sessions :=
  ((C3_amended_upload_sets_in_progress ⟨[{ sessW with status := "analyzed" }], []⟩ []
      "s" "q1" [1] "f.webm" "b1" (Option.some "hi") (by decide)
      { sessW with status := "analyzed" } (by decide) (by decide)).1)

theorem setStatus_not_found {ss : List Session} {sid status : String}
    (h : ∀ s ∈ ss, s.id ≠ sid) : setStatus ss sid status = ss := by
  rw [setStatus]
  conv_rhs => rw [← List.map_id ss]
  apply List.map_congr_left
  intro s hs
  rw [if_neg (by simpa using h s hs)]
  rfl

/-- C7: evaluation of the upload handler at the claim's two failure scenarios.
With the database reporting contention on every attempt (left conjunct), the
call surfaces the 500 while the FINAL file is still on disk and no Answer row
references it; with the write/rename step failing (right conjunct), the call
surfaces the storage 500 while the TEMP file is still on disk.  In both cases
the `except HTTPException: raise` at upload.py line 125 runs before the
cleanup block at lines 127-138, so contrary to the claim no file is removed
before the error surfaces. -/
theorem C7_no_cleanup_on_http_errors :
    ((upload_answer "s" "q1" [1] "f.webm" "b1" (Option.some "hi") false (fun _ => true)
        ⟨[sessW], []⟩ []).resp = .dbError ∧
     (upload_answer "s" "q1" [1] "f.webm" "b1" (Option.some "hi") false (fun _ => true)
        ⟨[sessW], []⟩ []).files = ["uploads/f.webm"] ∧
     (upload_answer "s" "q1" [1] "f.webm" "b1" (Option.some "hi") false (fun _ => true)
        ⟨[sessW], []⟩ []).store.answers = []) ∧
    ((upload_answer "s" "q1" [1] "g.webm" "b2" (Option.some "hi") true (fun _ => false)
        ⟨[sessW], []⟩ []).resp = .storageError ∧
     (upload_answer "s" "q1" [1] "g.webm" "b2" (Option.some "hi") true (fun _ => false)
        ⟨[sessW], []⟩ []).files = ["uploads/g.webm.tmp"]) := by
  decide

/-- C10: uploading non-empty audio for a session id matching no Session still
succeeds with the transcript and audio path: `upload_answer` never looks the
session up (it has no 404 path at all), the status `UPDATE` matches zero rows
so the sessions table is unchanged, and — the connection enforcing no foreign
keys — an Answer row referencing the absent session is inserted. -/
theorem C10_upload_dangling_session (store : Store) (files : List String)
    (sid qid : String) (content : List Nat) (filename answerId : String)
    (transcribed : Option String) (hne : content ≠ [])
    (hsid : ∀ s ∈ store.sessions, s.id ≠ sid)
    (hno : ∀ a ∈ store.answers, ¬(a.session_id = sid ∧ a.question_id = qid)) :
    (upload_answer sid qid content filename answerId transcribed false
        (fun _ => false) store files).resp =
      .ok (transcribed.getD "") ("uploads/" ++ filename) ∧
    (upload_answer sid qid content filename answerId transcribed false
        (fun _ => false) store files).store.sessions = store.sessions ∧
    (upload_answer sid qid content filename answerId transcribed false
        (fun _ => false) store files).store.answers =
      store.answers ++
        [freshAnswer answerId sid qid ("uploads/" ++ filename) (transcribed.getD "")] := by
  rw [upload_noFault_eq sid qid content filename answerId transcribed store files hne]
  refine ⟨rfl, ?_, ?_⟩
  · show setStatus store.sessions sid "in_progress" = store.sessions
    exact setStatus_not_found hsid
  · show upsertAnswer sid qid ("uploads/" ++ filename) (transcribed.getD "") answerId
        store.answers = _
    rw [upsertAnswer,
      List.find?_eq_none.mpr (fun a ha => by simpa using hno a ha)]

/-- Closed instance of `C10_upload_dangling_session` on a store with no
sessions at all. -/
theorem C10_upload_dangling_session_witness :
    (upload_answer "s" "q1" [1] "f.webm" "b1" (Option.some "hi") false
        (fun _ => false) ⟨[], []⟩ []).resp = .ok "hi" "uploads/f.webm" ∧
    (upload_answer "s" "q1" [1] "f.webm" "b1" (Option.some "hi") false
        (fun _ => false) ⟨[], []⟩ []).store.sessions = [] ∧
    (upload_answer "s" "q1" [1] "f.webm" "b1" (Option.some "hi") false
        (fun _ => false) ⟨[], []⟩ []).store.answers =
      [freshAnswer "b1" "s" "q1" "uploads/f.webm" "hi"] := by
  have h := C10_upload_dangling_session ⟨[], []⟩ [] "s" "q1" [1] "f.webm" "b1"
    (Option.some "hi") (by decide) (by decide) (by decide)
  simpa using h

/-- C6: uploading twice for the same `(session_id, question_id)` pair — with
non-empty audio both times, starting from a store holding no row for the pair
and no row with the first fresh id — leaves EXACTLY ONE Answer row for the
pair: the first upload inserts a fresh row under the freshly generated id
`b₁`; the second finds it and updates its `audio_path`/`transcript` in place,
keeping `b₁` (the second fresh id `b₂` is never used). -/
theorem C6_upsert_single_row (store : Store) (files : List String) (sid qid : String)
    (c₁ c₂ : List Nat) (f₁ b₁ f₂ b₂ : String) (t₁ t₂ : Option String)
    (hne₁ : c₁ ≠ []) (hne₂ : c₂ ≠ [])
    (hno : ∀ a ∈ store.answers, ¬(a.session_id = sid ∧ a.question_id = qid))
    (hfresh : ∀ a ∈ store.answers, a.id ≠ b₁) :
    ((upload_answer sid qid c₂ f₂ b₂ t₂ false (fun _ => false)
        (upload_answer sid qid c₁ f₁ b₁ t₁ false (fun _ => false) store files).store
        (upload_answer sid qid c₁ f₁ b₁ t₁ false (fun _ => false) store files).files
      ).store.answers.filter (fun a => a.session_id == sid && a.question_id == qid)) =
      [⟨b₁, sid, qid, Option.some ("uploads/" ++ f₂), Option.some (t₂.getD ""),
        PyVal.none, PyVal.none, PyVal.none⟩] := by
  have hf1 : store.answers.find? (fun a => a.session_id == sid && a.question_id == qid)
      = Option.none := List.find?_eq_none.mpr (fun a ha => by simpa using hno a ha)
  have h1 : uploadDbTxn sid qid ("uploads/" ++ f₁) (t₁.getD "") b₁ store
      = ⟨setStatus store.sessions sid "in_progress",
         store.answers ++ [freshAnswer b₁ sid qid ("uploads/" ++ f₁) (t₁.getD "")]⟩ := by
    rw [uploadDbTxn, upsertAnswer, hf1]
  have hf2 : (store.answers ++ [freshAnswer b₁ sid qid ("uploads/" ++ f₁) (t₁.getD "")]).find?
        (fun a => a.session_id == sid && a.question_id == qid)
      = Option.some (freshAnswer b₁ sid qid ("uploads/" ++ f₁) (t₁.getD "")) := by
    rw [List.find?_append, hf1]
    simp [freshAnswer]
  rw [upload_noFault_eq sid qid c₁ f₁ b₁ t₁ store files hne₁]
  dsimp only
  rw [h1]
  rw [upload_noFault_eq sid qid c₂ f₂ b₂ t₂
    ⟨setStatus store.sessions sid "in_progress",
     store.answers ++ [freshAnswer b₁ sid qid ("uploads/" ++ f₁) (t₁.getD "")]⟩
    (files ++ ["uploads/" ++ f₁]) hne₂]
  dsimp only
  rw [uploadDbTxn]
  dsimp only
  rw [upsertAnswer, hf2]
  dsimp only
  rw [List.map_append, List.filter_append]
  have hmap : store.answers.map (fun a =>
      if a.id == (freshAnswer b₁ sid qid ("uploads/" ++ f₁) (t₁.getD "")).id
      then { a with audio_path := Option.some ("uploads/" ++ f₂),
                    transcript := Option.some (t₂.getD "") }
      else a) = store.answers := by
    conv_rhs => rw [← List.map_id store.answers]
    apply List.map_congr_left
    intro a ha
    rw [if_neg (by simpa [freshAnswer] using hfresh a ha)]
    rfl
  rw [hmap]
  rw [List.filter_eq_nil_iff.mpr (fun a ha => by simpa using hno a ha)]
  simp [freshAnswer]

/-- Closed instance of `C6_upsert_single_row` on an empty store. -/
theorem C6_upsert_single_row_witness :
    ((upload_answer "s" "q1" [9] "f2.webm" "b2" (Option.some "second") false (fun _ => false)
        (upload_answer "s" "q1" [1] "f1.webm" "b1" (Option.some "first") false
          (fun _ => false) ⟨[sessW], []⟩ []).store
        (upload_answer "s" "q1" [1] "f1.webm" "b1" (Option.some "first") false
          (fun _ => false) ⟨[sessW], []⟩ []).files
      ).store.answers.filter (fun a => a.session_id == "s" && a.question_id == "q1")) =
      [⟨"b1", "s", "q1", Option.some "uploads/f2.webm", Option.some "second",
        PyVal.none, PyVal.none, PyVal.none⟩] := by
  have h := C6_upsert_single_row ⟨[sessW], []⟩ [] "s" "q1" [1] [9] "f1.webm" "b1"
    "f2.webm" "b2" (Option.some "first") (Option.some "second")
    (by decide) (by decide) (by decide) (by decide)
  simpa using h

theorem eligible_questions_nonempty {qs : List Question} {a : Answer}
    (h : eligible qs a = true) : qs.isEmpty = false := by
  cases qs with
  | nil => simp [eligible, qTextById] at h
  | cons q l => rfl

theorem deriveScore_ne_none {d : EvalDict}
    (h : pyGet d "total_score" ≠ PyVal.none ∨ pyGet d "score" ≠ PyVal.none) :
    deriveScore d ≠ PyVal.none := by
  by_cases hv : (pyGet d "total_score").isNone = true
  · have h2 : deriveScore d = pyGet d "score" := by simp [deriveScore, hv]
    rw [h2]
    rcases h with h | h
    · exact absurd (PyVal.isNone_iff.mp hv) h
    · exact h
  · have h2 : deriveScore d = pyGet d "total_score" := by simp [deriveScore, hv]
    rw [h2]
    intro he
    exact hv (by rw [he]; rfl)

/-- A fault-free `analyze` call on an existing session with questions commits,
on the first attempt and with no sleeps, exactly the result of the evaluation
loop over the session's answers. -/
theorem analyze_noFault_found (co : Collab) (store : Store) (sid : String) (sess : Session)
    (hf : store.sessions.find? (fun s => s.id == sid) = Option.some sess)
    (hq : sess.questions.isEmpty = false) :
    analyze_session co (fun _ => false) store sid =
      ⟨⟨setStatus store.sessions sid "analyzed",
        store.answers.map (applyUpds (runOf co store sid sess.questions).updates)⟩,
       runOf co store sid sess.questions, .ok, 1, []⟩ := by
  have honce : analyzeOnce co store sid = .done
      ⟨setStatus store.sessions sid "analyzed",
       store.answers.map (applyUpds (runOf co store sid sess.questions).updates)⟩
      (runOf co store sid sess.questions) := by
    unfold analyzeOnce
    rw [hf]
    dsimp only
    rw [if_neg (by simp [hq])]
  simp [analyze_session, retryLoop, analyzeAttempt, honce]

/-- C4: for a session whose eligible answers all evaluate to well-formed,
score-carrying results except for exactly the one answer `astar` (whose
evaluation raises), one fault-free `analyze` call (given PK uniqueness of
answer ids and a reference generator that always succeeds) returns success,
sets the session status to `analyzed`, and leaves every OTHER eligible answer
with a non-null score: the single per-answer failure aborts nothing. -/
theorem C4_partial_failure_isolation (co : Collab) (store : Store) (sid : String)
    (sess : Session)
    (hf : store.sessions.find? (fun s => s.id == sid) = Option.some sess)
    (hnd : (store.answers.map Answer.id).Nodup)
    (hgen : ∀ q n, (co.gen q n).isSome = true)
    (astar : Answer) (hstar_mem : astar ∈ store.answers)
    (hstar_sid : astar.session_id = sid)
    (hstar_elig : eligible sess.questions astar = true)
    (hstar_fail : co.evalAns astar.id = .fail)
    (hothers : ∀ b ∈ store.answers, b.session_id = sid →
      eligible sess.questions b = true → b.id ≠ astar.id →
      ∃ d, co.evalAns b.id = .ok d ∧
        (pyGet d "total_score" ≠ PyVal.none ∨ pyGet d "score" ≠ PyVal.none)) :
    (analyze_session co (fun _ => false) store sid).resp = .ok ∧
    (∀ s ∈ (analyze_session co (fun _ => false) store sid).store.sessions,
        s.id = sid → s.status = "analyzed") ∧
    (∀ b ∈ store.answers, b.session_id = sid → eligible sess.questions b = true →
      b.id ≠ astar.id →
      ∃ a' ∈ (analyze_session co (fun _ => false) store sid).store.answers,
        a'.id = b.id ∧ a'.score ≠ PyVal.none) := by
  have hq := eligible_questions_nonempty hstar_elig
  rw [analyze_noFault_found co store sid sess hf hq]
  dsimp only
  refine ⟨rfl, ?_, ?_⟩
  · intro s hs hsid
    exact setStatus_mem hs hsid
  · intro b hb hbsid hbelig hbne
    rcases hothers b hb hbsid hbelig hbne with ⟨d, hok, hsc⟩
    have h1 : (b.score.isNone = true ∧ strTruthy b.transcript = true) ∧
        ¬(qTextById sess.questions b.question_id = "") := by
      simpa [eligible] using hbelig
    have hbsnap : b ∈ store.answers.filter (fun a => a.session_id == sid) := by
      rw [List.mem_filter]
      exact ⟨hb, by simpa using hbsid⟩
    rcases update_exists_fold co sess.questions hgen
        (store.answers.filter (fun a => a.session_id == sid)) ⟨[], [], []⟩ b d
        hbsnap h1.1.1 h1.1.2 h1.2 hok with ⟨u, hu_mem, hu_id, hu_score, hu_fb⟩
    have hsnapnd : ((store.answers.filter (fun a => a.session_id == sid)).map Answer.id).Nodup :=
      hnd.sublist ((List.filter_sublist _).map Answer.id)
    have hnd_ups : ((runOf co store sid sess.questions).updates.map Upd.id).Nodup := by
      have hsub := updates_ids_sub_fold co sess.questions
        (store.answers.filter (fun a => a.session_id == sid)) ⟨[], [], []⟩
      simp only [List.map_nil, List.nil_append] at hsub
      exact hsnapnd.sublist hsub
    have happly := applyUpds_of_mem (runOf co store sid sess.questions).updates b u
      hu_mem hu_id hnd_ups
    refine ⟨applyUpds (runOf co store sid sess.questions).updates b,
      List.mem_map_of_mem _ hb, applyUpds_id _ b, ?_⟩
    rw [happly]
    show u.score ≠ PyVal.none
    rw [hu_score]
    exact deriveScore_ne_none hsc

/-- Closed instance of `C4_partial_failure_isolation`: two eligible answers,
the evaluator raising exactly for `a2`; `a3` ends up scored and the call
succeeds. -/
theorem C4_partial_failure_isolation_witness :
    (analyze_session collabW (fun _ => false)
      ⟨[sessW], [ansNew "a2", ansNew "a3"]⟩ "s").resp = .ok ∧
    ∃ a' ∈ (analyze_session collabW (fun _ => false)
        ⟨[sessW], [ansNew "a2", ansNew "a3"]⟩ "s").store.answers,
      a'.id = (ansNew "a3").id ∧ a'.score ≠ PyVal.none := by
  have h := C4_partial_failure_isolation collabW ⟨[sessW], [ansNew "a2", ansNew "a3"]⟩ "s"
    sessW (by decide) (by decide) (fun q n => rfl) (ansNew "a2") (by decide) (by decide)
    (by decide) rfl
    (by
      intro b hb hbsid hbelig hbne
      rcases List.mem_cons.mp hb with rfl | hb'
      · exact absurd rfl hbne
      · have hb3 : b = ansNew "a3" := by simpa using hb'
        subst hb3
        exact ⟨[("total_score", PyVal.int 8), ("feedback", PyVal.str "good")], rfl,
          Or.inl (by decide)⟩)
  exact ⟨h.1, h.2.2 (ansNew "a3") (by decide) (by decide) (by decide) (by decide)⟩

theorem evalStep_cache_genLog (co : Collab) (st : RunState) (a : Answer) (ref : String) :
    (evalStep co st a ref).cache = st.cache ∧ (evalStep co st a ref).genLog = st.genLog := by
  unfold evalStep
  cases co.evalAns a.id <;> simp

theorem countCalls_append (log e : List String) (qid : String) :
    countCalls (log ++ e) qid = countCalls log qid + countCalls e qid := by
  rw [countCalls, countCalls, countCalls, List.filter_append, List.length_append]

theorem countCalls_singleton_self (qid : String) : countCalls [qid] qid = 1 := by
  simp [countCalls]

theorem countCalls_singleton_ne {q qid : String} (h : q ≠ qid) : countCalls [q] qid = 0 := by
  simp [countCalls, h]

theorem lookupCache_append (c e : List (String × String)) (qid : String) :
    lookupCache (c ++ e) qid =
      match lookupCache c qid with
      | Option.some r => Option.some r
      | Option.none => lookupCache e qid := by
  rw [lookupCache, lookupCache, lookupCache, List.find?_append]
  cases c.find? (fun p => p.1 == qid) <;> simp

theorem lookupCache_singleton_ne {q qid : String} (r : String) (h : q ≠ qid) :
    lookupCache [(q, r)] qid = Option.none := by
  simp [lookupCache, h]

/-- Processing an answer that is not an eligible answer for `qid` touches
neither the generation count nor the cache slot of `qid`. -/
theorem stepAnswer_other_qid (co : Collab) (qs : List Question) (st : RunState) (a : Answer)
    (qid : String) (hw : wantsGen qs qid a = false) :
    countCalls (stepAnswer co qs st a).genLog qid = countCalls st.genLog qid ∧
    lookupCache (stepAnswer co qs st a).cache qid = lookupCache st.cache qid := by
  cases hA : a.score.isNone with
  | false => simp [stepAnswer, hA]
  | true =>
    cases hB : strTruthy a.transcript with
    | false => simp [stepAnswer, hA, hB]
    | true =>
      by_cases hq : qTextById qs a.question_id = ""
      · simp [stepAnswer, hA, hB, hq]
      · have hne : a.question_id ≠ qid := by
          intro e
          rw [wantsGen, eligible] at hw
          rw [e] at hq
          simp [hA, hB, e] at hw
          exact hq hw
        cases hc : lookupCache st.cache a.question_id with
        | some ref =>
            have hstep : stepAnswer co qs st a = evalStep co st a ref := by
              simp [stepAnswer, hA, hB, hq, hc]
            have hev := evalStep_cache_genLog co st a ref
            rw [hstep, hev.1, hev.2]
            exact ⟨rfl, rfl⟩
        | none =>
            cases hg : co.gen a.question_id (countCalls st.genLog a.question_id) with
            | none =>
                have hstep : stepAnswer co qs st a =
                    { st with genLog := st.genLog ++ [a.question_id] } := by
                  simp [stepAnswer, hA, hB, hq, hc, hg]
                rw [hstep]
                refine ⟨?_, rfl⟩
                rw [countCalls_append, countCalls_singleton_ne hne, Nat.add_zero]
            | some ref =>
                have hstep : stepAnswer co qs st a = evalStep co
                    { st with cache := st.cache ++ [(a.question_id, ref)],
                              genLog := st.genLog ++ [a.question_id] } a ref := by
                  simp [stepAnswer, hA, hB, hq, hc, hg]
                have hev := evalStep_cache_genLog co
                  { st with cache := st.cache ++ [(a.question_id, ref)],
                            genLog := st.genLog ++ [a.question_id] } a ref
                rw [hstep, hev.1, hev.2]
                constructor
                · rw [countCalls_append, countCalls_singleton_ne hne, Nat.add_zero]
                · rw [lookupCache_append]
                  cases hcq : lookupCache st.cache qid with
                  | some r => rfl
                  | none => exact lookupCache_singleton_ne ref hne

/-- Processing an eligible answer for `qid` while the cache already holds a
reference for `qid` triggers no generator call and keeps the slot. -/
theorem stepAnswer_cached (co : Collab) (qs : List Question) (st : RunState) (a : Answer)
    (qid r : String) (hw : wantsGen qs qid a = true)
    (hc : lookupCache st.cache qid = Option.some r) :
    countCalls (stepAnswer co qs st a).genLog qid = countCalls st.genLog qid ∧
    lookupCache (stepAnswer co qs st a).cache qid = Option.some r := by
  have hparts : (eligible qs a = true) ∧ a.question_id = qid := by
    simpa [wantsGen] using hw
  obtain ⟨helig, hqid⟩ := hparts
  have hsplit : (a.score.isNone = true ∧ strTruthy a.transcript = true) ∧
      ¬(qTextById qs a.question_id = "") := by
    simpa [eligible] using helig
  obtain ⟨⟨hA, hB⟩, hq⟩ := hsplit
  have hq' : ¬(qTextById qs qid = "") := by
    rw [← hqid]; exact hq
  have hstep : stepAnswer co qs st a = evalStep co st a r := by
    simp [stepAnswer, hA, hB, hq', hqid, hc]
  have hev := evalStep_cache_genLog co st a r
  rw [hstep, hev.1, hev.2]
  exact ⟨rfl, hc⟩

/-- Processing an eligible answer for `qid` on a cache miss makes exactly one
generator call (at the current per-id attempt index); afterwards the cache
slot holds exactly that call's outcome — nothing is recorded on failure. -/
theorem stepAnswer_gen_call (co : Collab) (qs : List Question) (st : RunState) (a : Answer)
    (qid : String) (hw : wantsGen qs qid a = true)
    (hc : lookupCache st.cache qid = Option.none) :
    countCalls (stepAnswer co qs st a).genLog qid = countCalls st.genLog qid + 1 ∧
    lookupCache (stepAnswer co qs st a).cache qid =
      co.gen qid (countCalls st.genLog qid) := by
  have hparts : (eligible qs a = true) ∧ a.question_id = qid := by
    simpa [wantsGen] using hw
  obtain ⟨helig, hqid⟩ := hparts
  have hsplit : (a.score.isNone = true ∧ strTruthy a.transcript = true) ∧
      ¬(qTextById qs a.question_id = "") := by
    simpa [eligible] using helig
  obtain ⟨⟨hA, hB⟩, hq⟩ := hsplit
  have hq' : ¬(qTextById qs qid = "") := by
    rw [← hqid]; exact hq
  cases hg : co.gen qid (countCalls st.genLog qid) with
  | none =>
      have hstep : stepAnswer co qs st a =
          { st with genLog := st.genLog ++ [qid] } := by
        simp [stepAnswer, hA, hB, hq', hqid, hc, hg]
      rw [hstep]
      refine ⟨?_, hc⟩
      rw [countCalls_append, countCalls_singleton_self]
  | some r =>
      have hstep : stepAnswer co qs st a = evalStep co
          { st with cache := st.cache ++ [(qid, r)],
                    genLog := st.genLog ++ [qid] } a r := by
        simp [stepAnswer, hA, hB, hq', hqid, hc, hg]
      have hev := evalStep_cache_genLog co
        { st with cache := st.cache ++ [(qid, r)],
                  genLog := st.genLog ++ [qid] } a r
      rw [hstep, hev.1, hev.2]
      constructor
      · rw [countCalls_append, countCalls_singleton_self]
      · rw [lookupCache_append, hc]
        simp [lookupCache]

/-- Once the cache slot of `qid` is filled, the rest of the loop makes no
further generator call for `qid` and the slot keeps its value. -/
theorem genLog_fold_cached (co : Collab) (qs : List Question) (qid r : String) :
    ∀ (l : List Answer) (st : RunState),
    lookupCache st.cache qid = Option.some r →
    countCalls (l.foldl (stepAnswer co qs) st).genLog qid = countCalls st.genLog qid ∧
    lookupCache (l.foldl (stepAnswer co qs) st).cache qid = Option.some r
  | [], _, hc => ⟨rfl, hc⟩
  | a :: l, st, hc => by
      by_cases hw : wantsGen qs qid a = true
      · have h := stepAnswer_cached co qs st a qid r hw hc
        have ih := genLog_fold_cached co qs qid r l (stepAnswer co qs st a) h.2
        exact ⟨by rw [List.foldl_cons, ih.1, h.1], ih.2⟩
      · have h := stepAnswer_other_qid co qs st a qid (by simpa using hw)
        have ih := genLog_fold_cached co qs qid r l (stepAnswer co qs st a)
          (by rw [h.2]; exact hc)
        exact ⟨by rw [List.foldl_cons, ih.1, h.1], ih.2⟩

/-- When the first generator call for `qid` succeeds, a loop that starts with
an empty slot and no calls for `qid` ends having made exactly one call for
`qid` if any processed answer is eligible for `qid`, and none otherwise. -/
theorem genLog_fold_first_success (co : Collab) (qs : List Question) (qid r : String)
    (hgen0 : co.gen qid 0 = Option.some r) :
    ∀ (l : List Answer) (st : RunState),
    countCalls st.genLog qid = 0 → lookupCache st.cache qid = Option.none →
    countCalls (l.foldl (stepAnswer co qs) st).genLog qid =
      (if (l.filter (wantsGen qs qid)).isEmpty then 0 else 1)
  | [], st, h0, _ => by simpa using h0
  | a :: l, st, h0, hc => by
      by_cases hw : wantsGen qs qid a = true
      · have h := stepAnswer_gen_call co qs st a qid hw hc
        have hcached : lookupCache (stepAnswer co qs st a).cache qid = Option.some r := by
          rw [h.2, h0, hgen0]
        have hrest := genLog_fold_cached co qs qid r l (stepAnswer co qs st a) hcached
        show countCalls (l.foldl (stepAnswer co qs) (stepAnswer co qs st a)).genLog qid = _
        rw [hrest.1, h.1, h0]
        simp [List.filter_cons, hw]
      · have h := stepAnswer_other_qid co qs st a qid (by simpa using hw)
        have ih := genLog_fold_first_success co qs qid r hgen0 l (stepAnswer co qs st a)
          (by rw [h.1]; exact h0) (by rw [h.2]; exact hc)
        show countCalls (l.foldl (stepAnswer co qs) (stepAnswer co qs st a)).genLog qid = _
        rw [ih]
        simp [List.filter_cons, hw]

/-- When every generator call for `qid` fails, nothing is ever cached for
`qid` and each eligible answer for `qid` retries generation: the loop makes
exactly one call per such answer. -/
theorem genLog_fold_all_fail (co : Collab) (qs : List Question) (qid : String)
    (hfail : ∀ n, co.gen qid n = Option.none) :
    ∀ (l : List Answer) (st : RunState),
    lookupCache st.cache qid = Option.none →
    countCalls (l.foldl (stepAnswer co qs) st).genLog qid =
      countCalls st.genLog qid + (l.filter (wantsGen qs qid)).length ∧
    lookupCache (l.foldl (stepAnswer co qs) st).cache qid = Option.none
  | [], st, hc => ⟨by simp, hc⟩
  | a :: l, st, hc => by
      by_cases hw : wantsGen qs qid a = true
      · have h := stepAnswer_gen_call co qs st a qid hw hc
        have hc' : lookupCache (stepAnswer co qs st a).cache qid = Option.none := by
          rw [h.2, hfail]
        have ih := genLog_fold_all_fail co qs qid hfail l (stepAnswer co qs st a) hc'
        constructor
        · show countCalls (l.foldl (stepAnswer co qs) (stepAnswer co qs st a)).genLog qid = _
          rw [ih.1, h.1]
          simp [List.filter_cons, hw]
          omega
        · exact ih.2
      · have h := stepAnswer_other_qid co qs st a qid (by simpa using hw)
        have ih := genLog_fold_all_fail co qs qid hfail l (stepAnswer co qs st a)
          (by rw [h.2]; exact hc)
        constructor
        · show countCalls (l.foldl (stepAnswer co qs) (stepAnswer co qs st a)).genLog qid = _
          rw [ih.1, h.1]
          simp [List.filter_cons, hw]
        · exact ih.2

/-- C8: within one fault-free `analyze` run over a session with questions:
(i) if the first reference-generation call for a question id succeeds, the
generator is called exactly once for that id when at least one eligible
answer shares it (no matter how many do) and never otherwise; (ii) if
generation for the id fails on every attempt, nothing is ever cached for the
id and every eligible answer sharing it retries generation — one call per
such answer. -/
theorem C8_reference_cache_per_question (co : Collab) (store : Store) (sid : String)
    (sess : Session)
    (hf : store.sessions.find? (fun s => s.id == sid) = Option.some sess)
    (hq : sess.questions.isEmpty = false) (qid : String) :
    (∀ r, co.gen qid 0 = Option.some r →
      countCalls (analyze_session co (fun _ => false) store sid).run.genLog qid =
        (if ((store.answers.filter (fun a => a.session_id == sid)).filter
            (wantsGen sess.questions qid)).isEmpty then 0 else 1)) ∧
    ((∀ n, co.gen qid n = Option.none) →
      countCalls (analyze_session co (fun _ => false) store sid).run.genLog qid =
        ((store.answers.filter (fun a => a.session_id == sid)).filter
          (wantsGen sess.questions qid)).length ∧
      lookupCache (analyze_session co (fun _ => false) store sid).run.cache qid =
        Option.none) := by
  rw [analyze_noFault_found co store sid sess hf hq]
  dsimp only [runOf]
  constructor
  · intro r hgen0
    exact genLog_fold_first_success co sess.questions qid r hgen0
      (store.answers.filter (fun a => a.session_id == sid)) ⟨[], [], []⟩ rfl rfl
  · intro hfail
    have h := genLog_fold_all_fail co sess.questions qid hfail
      (store.answers.filter (fun a => a.session_id == sid)) ⟨[], [], []⟩ rfl
    exact ⟨by rw [h.1]; simp [countCalls], h.2⟩

/-- Closed instance of `C8_reference_cache_per_question`: three eligible
answers sharing question `q1` and a generator succeeding first try yield
exactly one generation call. -/
theorem C8_reference_cache_per_question_witness :
    countCalls (analyze_session collabW (fun _ => false)
      ⟨[sessW], [ansNew "a4", ansNew "a5", ansNew "a6"]⟩ "s").run.genLog "q1" = 1 := by
  rw [(C8_reference_cache_per_question collabW
    ⟨[sessW], [ansNew "a4", ansNew "a5", ansNew "a6"]⟩ "s" sessW (by decide) (by decide)
    "q1").1 "ideal" rfl]
  decide

theorem specScore_eq_deriveScore (d : EvalDict) : specScore d = deriveScore d := by
  cases h : dictGet d "total_score" <;> simp [specScore, deriveScore, pyGet, PyVal.isNone, h]

theorem specFeedback_eq_normFeedback (d : EvalDict) : specFeedback d = normFeedback d := by
  cases h : dictGet d "feedback" with
  | none => simp [specFeedback, normFeedback, h]
  | some v => cases v <;> simp [specFeedback, normFeedback, h]

/-- C9 counterexample: the evaluator returns the well-formed dict with
`total_score` present but null, `score` 7, and `feedback` the bare scalar
`""`.  The claim predicts a persisted score equal to the `total_score` field
(here null) because that key is present, and a persisted feedback equal to
the one-element sequence holding the scalar; the code instead persists 7
(`score = evaluation.get("total_score")` falls through on the null) and the
EMPTY sequence (`[feedback] if feedback else []` drops the falsy scalar). -/
theorem C9_counterexample_null_total_score_falsy_feedback :
    dictGet [("total_score", PyVal.none), ("score", PyVal.int 7), ("feedback", PyVal.str "")]
        "total_score" = Option.some PyVal.none ∧
    dictGet [("total_score", PyVal.none), ("score", PyVal.int 7), ("feedback", PyVal.str "")]
        "feedback" = Option.some (PyVal.str "") ∧
    (∃ a' ∈ (analyze_session collabNullScore (fun _ => false)
        ⟨[sessW], [ansNew "a7"]⟩ "s").store.answers,
      a'.id = "a7" ∧ a'.score = PyVal.int 7 ∧ a'.score ≠ PyVal.none ∧
      a'.feedback = PyVal.list [] ∧ a'.feedback ≠ PyVal.list [PyVal.str ""]) := by
  decide

/-- C9 (amended): for every eligible answer whose evaluation returns a
well-formed structured result `d`, a fault-free `analyze` (with PK-unique
answer ids and an always-successful reference generator) persists as score
the result's `total_score` when present AND non-null, otherwise its `score`
value; and as feedback the result's `feedback` kept as-is when it is already
a list, wrapped into a one-element sequence when it is a truthy scalar, and
the empty sequence when it is absent or falsy. -/
theorem C9_amended_score_feedback_derivation (co : Collab) (store : Store) (sid : String)
    (sess : Session)
    (hf : store.sessions.find? (fun s => s.id == sid) = Option.some sess)
    (hnd : (store.answers.map Answer.id).Nodup)
    (hgen : ∀ q n, (co.gen q n).isSome = true)
    (b : Answer) (hb : b ∈ store.answers) (hbsid : b.session_id = sid)
    (hbelig : eligible sess.questions b = true)
    (d : EvalDict) (hok : co.evalAns b.id = .ok d) :
    ∃ a' ∈ (analyze_session co (fun _ => false) store sid).store.answers,
      a'.id = b.id ∧ a'.score = specScore d ∧ a'.feedback = specFeedback d := by
  have hq := eligible_questions_nonempty hbelig
  rw [analyze_noFault_found co store sid sess hf hq]
  dsimp only
  have h1 : (b.score.isNone = true ∧ strTruthy b.transcript = true) ∧
      ¬(qTextById sess.questions b.question_id = "") := by
    simpa [eligible] using hbelig
  have hbsnap : b ∈ store.answers.filter (fun a => a.session_id == sid) := by
    rw [List.mem_filter]
    exact ⟨hb, by simpa using hbsid⟩
  rcases update_exists_fold co sess.questions hgen
      (store.answers.filter (fun a => a.session_id == sid)) ⟨[], [], []⟩ b d
      hbsnap h1.1.1 h1.1.2 h1.2 hok with ⟨u, hu_mem, hu_id, hu_score, hu_fb⟩
  have hsnapnd : ((store.answers.filter (fun a => a.session_id == sid)).map Answer.id).Nodup :=
    hnd.sublist ((List.filter_sublist _).map Answer.id)
  have hnd_ups : ((runOf co store sid sess.questions).updates.map Upd.id).Nodup := by
    have hsub := updates_ids_sub_fold co sess.questions
      (store.answers.filter (fun a => a.session_id == sid)) ⟨[], [], []⟩
    simp only [List.map_nil, List.nil_append] at hsub
    exact hsnapnd.sublist hsub
  have happly := applyUpds_of_mem (runOf co store sid sess.questions).updates b u
    hu_mem hu_id hnd_ups
  refine ⟨applyUpds (runOf co store sid sess.questions).updates b,
    List.mem_map_of_mem _ hb, applyUpds_id _ b, ?_, ?_⟩
  · rw [happly]
    show u.score = specScore d
    rw [hu_score, specScore_eq_deriveScore]
  · rw [happly]
    show u.feedback = specFeedback d
    rw [hu_fb, specFeedback_eq_normFeedback]

/-- Closed instance of `C9_amended_score_feedback_derivation` at the
counterexample's evaluator output. -/
theorem C9_amended_score_feedback_derivation_witness :
    ∃ a' ∈ (analyze_session collabNullScore (fun _ => false)
        ⟨[sessW], [ansNew "a7"]⟩ "s").store.answers,
      a'.id = (ansNew "a7").id ∧
      a'.score = specScore
        [("total_score", PyVal.none), ("score", PyVal.int 7), ("feedback", PyVal.str "")] ∧
      a'.feedback = specFeedback
        [("total_score", PyVal.none), ("score", PyVal.int 7), ("feedback", PyVal.str "")] :=
  C9_amended_score_feedback_derivation collabNullScore ⟨[sessW], [ansNew "a7"]⟩ "s" sessW
    (by decide) (by decide) (fun q n => rfl) (ansNew "a7") (by decide) (by decide)
    (by decide) [("total_score", PyVal.none), ("score", PyVal.int 7),
      ("feedback", PyVal.str "")] rfl
